import Mathlib

/-!
Shallow embedding of `scripts/struct2java.py`: the script parses the DWARF
debug information of an ELF file, indexes structure-type and typedef DIEs,
resolves a queried name to a struct record (direct name first, then one level
of typedef indirection) and prints one Java constant per struct member.

The external DWARF parser (pyelftools) is an out-of-scope collaborator: a
compilation unit is modelled as the sequence of DIEs that `CU.iter_DIEs()`
yields, and each DIE carries the fields and attributes the script reads.
Python `dict` assignment is modelled by prepending to an association list and
reading with `List.lookup` (first match = most recent assignment), `dict.get`
by `List.lookup`, and a `dict[...]` access on a missing key by an explicit
`keyError` outcome, mirroring Python's uncaught `KeyError`.
-/

namespace Struct2Java

/-- A DWARF debugging information entry (DIE) as the script reads it: its tag,
its absolute offset in the debug-info section (`DIE.offset`), the attributes
the script ever accesses (`DW_AT_name`, `DW_AT_type`,
`DW_AT_data_member_location`, each possibly absent), its child DIEs
(`iter_children`), and the base offset of its owning compilation unit
(`DIE.cu.cu_offset`). -/
inductive DIE : Type where
  | mk (tag : String) (offset : Nat) (attr_name : Option String)
      (attr_type : Option Nat) (attr_member_loc : Option Nat)
      (children : List DIE) (cu_offset : Nat)

def DIE.tag : DIE → String
  | .mk t _ _ _ _ _ _ => t

def DIE.offset : DIE → Nat
  | .mk _ o _ _ _ _ _ => o

def DIE.attr_name : DIE → Option String
  | .mk _ _ n _ _ _ _ => n

def DIE.attr_type : DIE → Option Nat
  | .mk _ _ _ t _ _ _ => t

def DIE.attr_member_loc : DIE → Option Nat
  | .mk _ _ _ _ l _ _ => l

def DIE.children : DIE → List DIE
  | .mk _ _ _ _ _ c _ => c

def DIE.cu_offset : DIE → Nat
  | .mk _ _ _ _ _ _ u => u

/-- `DIE_to_name(DIE)`: the value of the `DW_AT_name` attribute when present,
`None` otherwise (the ascii decoding is modelled away: names are strings). -/
def DIE_to_name (d : DIE) : Option String :=
  d.attr_name

/-- The three module-scope dictionaries the script builds while iterating the
compilation units: `structs_by_offset`, `structs_by_name`, `typedefs_by_name`. -/
structure Index : Type where
  structs_by_offset : List (Nat × DIE)
  structs_by_name : List (String × DIE)
  typedefs_by_name : List (String × DIE)

def emptyIndex : Index :=
  ⟨[], [], []⟩

/-- Body of the index-building loop for one DIE: a named typedef is recorded in
`typedefs_by_name`; a structure type is always recorded in `structs_by_offset`
keyed by its absolute offset and, when named, in `structs_by_name`. -/
def processDIE (idx : Index) (d : DIE) : Index :=
  let idx1 :=
    if d.tag == "DW_TAG_typedef" then
      match DIE_to_name d with
      | some name => { idx with typedefs_by_name := (name, d) :: idx.typedefs_by_name }
      | none => idx
    else idx
  if d.tag == "DW_TAG_structure_type" then
    let idx2 := { idx1 with structs_by_offset := (d.offset, d) :: idx1.structs_by_offset }
    match DIE_to_name d with
    | some name => { idx2 with structs_by_name := (name, d) :: idx2.structs_by_name }
    | none => idx2
  else idx1

/-- `for CU in dwarfinfo.iter_CUs(): for DIE in CU.iter_DIEs(): ...` —
the index built from the DIE streams of all compilation units. -/
def buildIndex (cus : List (List DIE)) : Index :=
  cus.foldl (fun idx cu => cu.foldl processDIE idx) emptyIndex

/-- Outcome of the struct-resolution block: the struct record that was found,
the `die('could not find struct %s')` exit, or an uncaught Python `KeyError`
(from `td.attributes['DW_AT_type']` when the typedef has no type reference). -/
inductive ResolveResult : Type where
  | found (s : DIE)
  | structNotFound
  | keyError (key : String)

/-- The resolution block of the script: look the query up in
`structs_by_name`; if absent, look it up in `typedefs_by_name` and, when a
typedef is found, dereference `DW_AT_type` + `cu_offset` in
`structs_by_offset`; die when still no struct was found. -/
def resolveStruct (idx : Index) (name : String) : ResolveResult :=
  match idx.structs_by_name.lookup name with
  | some s => .found s
  | none =>
    match idx.typedefs_by_name.lookup name with
    | none => .structNotFound
    | some td =>
      match td.attr_type with
      | none => .keyError "DW_AT_type"
      | some tref =>
        match idx.structs_by_offset.lookup (tref + td.cu_offset) with
        | some s => .found s
        | none => .structNotFound

/-- Lowercase hexadecimal rendering of a natural number, as Python `'%x'`. -/
def hexStr (n : Nat) : String :=
  String.mk (Nat.toDigits 16 n)

/-- Python `'%s'` formatting of an optional name: the string itself, or the
literal text `None` when the attribute was absent. -/
def pyFormatName : Option String → String
  | some s => s
  | none => "None"

/-- One emitted member line: `'  public static final int %s = 0x%x;'`. -/
def memberLine (n : Option String) (off : Nat) : String :=
  "  public static final int " ++ pyFormatName n ++ " = 0x" ++ hexStr off ++ ";"

/-- The block header line: `'final class %s \x7b'` applied to the query. -/
def classHeader (q : String) : String :=
  "final class " ++ q ++ " \x7b"

/-- Observable outcome of a run: normal termination with the stdout lines, a
`die(...)` exit carrying the stderr message and the stdout lines printed before
it, or an uncaught `KeyError` with the stdout lines printed before it. -/
inductive RunOutcome : Type where
  | ok (stdout : List String)
  | died (stderr : String) (stdout : List String)
  | keyError (key : String) (stdout : List String)

/-- The member-emission loop over `struct.iter_children()`, with `acc` the
stdout lines printed so far. A member child is printed with its (possibly
absent) name and its `DW_AT_data_member_location`; a missing location raises
`KeyError`; any non-member child calls `die`. After the loop the closing
brace line is printed. -/
def emitMembers (acc : List String) : List DIE → RunOutcome
  | [] => .ok (acc ++ ["\x7d"])
  | c :: rest =>
    if c.tag == "DW_TAG_member" then
      match c.attr_member_loc with
      | some off => emitMembers (acc ++ [memberLine (DIE_to_name c) off]) rest
      | none => .keyError "DW_AT_data_member_location" acc
    else
      .died ("struct2java.py: unknown child of struct DIE: " ++ c.tag) acc

/-- Emission of the whole block for a resolved struct: header line (named after
the query string), then the member loop. -/
def emitStruct (query : String) (s : DIE) : RunOutcome :=
  emitMembers [classHeader query] s.children

/-- The whole post-parse run: build the index from the compilation units,
resolve the query, and either emit the block or fail the way the script does. -/
def runQuery (cus : List (List DIE)) (query : String) : RunOutcome :=
  match resolveStruct (buildIndex cus) query with
  | .found s => emitStruct query s
  | .structNotFound => .died ("struct2java.py: could not find struct " ++ query) []
  | .keyError k => .keyError k []

/-- Data-level outcome of the member loop: the (name, byte offset) pairs the
loop computes, or the failure it hits, together with the pairs computed before
the failure. -/
inductive EnumOutcome : Type where
  | ok (pairs : List (Option String × Nat))
  | keyError (key : String) (pairs : List (Option String × Nat))
  | died (childTag : String) (pairs : List (Option String × Nat))

/-- The member loop viewed as the spec's `enumerateMembers`: the same
iteration over the children, producing the (name, offset) pair of each member
child instead of its formatted line. -/
def enumerateMembers : List DIE → EnumOutcome
  | [] => .ok []
  | c :: rest =>
    if c.tag == "DW_TAG_member" then
      match c.attr_member_loc with
      | some off =>
        match enumerateMembers rest with
        | .ok ps => .ok ((DIE_to_name c, off) :: ps)
        | .keyError k ps => .keyError k ((DIE_to_name c, off) :: ps)
        | .died t ps => .died t ((DIE_to_name c, off) :: ps)
      | none => .keyError "DW_AT_data_member_location" []
    else
      .died c.tag []

def structX : DIE := .mk "DW_TAG_structure_type" 5 (some "X") none none [] 0


def typedefX : DIE := .mk "DW_TAG_typedef" 7 (some "X") (some 99) none [] 0


def idxC1 : Index := buildIndex [[structX, typedefX]]


def memberC2 : DIE := .mk "DW_TAG_member" 12 (some "a") none (some 0) [] 4


def structC2 : DIE := .mk "DW_TAG_structure_type" 10 (some "S2") none none [memberC2] 4


def typedefC2 : DIE := .mk "DW_TAG_typedef" 20 (some "T2") (some 6) none [] 4


def idxC2 : Index := buildIndex [[structC2, typedefC2]]


def memberC3 : DIE := .mk "DW_TAG_member" 12 (some "f") none (some 8) [] 0


def structC3 : DIE := .mk "DW_TAG_structure_type" 10 (some "S3") none none [memberC3] 0


def typedefC3 : DIE := .mk "DW_TAG_typedef" 20 (some "T3") (some 10) none [] 0


def idxC3 : Index := buildIndex [[structC3, typedefC3]]


def typedefU4 : DIE := .mk "DW_TAG_typedef" 30 (some "U4") (some 40) none [] 0


def typedefT4 : DIE := .mk "DW_TAG_typedef" 20 (some "T4") (some 30) none [] 0


def idxC4 : Index := buildIndex [[typedefU4, typedefT4]]


def typedefT9 : DIE := .mk "DW_TAG_typedef" 20 (some "T9") none none [] 0


def idxC9 : Index := buildIndex [[typedefT9]]


/-- The DIEs whose processing assigns `structs_by_name[n]`. -/
def isStructNamed (n : String) (d : DIE) : Bool :=
  d.tag == "DW_TAG_structure_type" && some n == DIE_to_name d


/-- The DIEs whose processing assigns `typedefs_by_name[n]`. -/
def isTypedefNamed (n : String) (d : DIE) : Bool :=
  d.tag == "DW_TAG_typedef" && some n == DIE_to_name d


/-- The DIEs whose processing assigns `structs_by_offset[off]`. -/
def isStructAt (off : Nat) (d : DIE) : Bool :=
  d.tag == "DW_TAG_structure_type" && off == d.offset


def structDup1 : DIE := .mk "DW_TAG_structure_type" 3 (some "D") none none [] 0


def structDup2 : DIE := .mk "DW_TAG_structure_type" 103 (some "D") none none [] 100


def anonStruct : DIE := .mk "DW_TAG_structure_type" 7 none none none [] 0


def cusC8 : List (List DIE) := [[structDup1, anonStruct], [structDup2]]

def anonMember : DIE := .mk "DW_TAG_member" 2 none none (some 0) [] 0

def structAnonHost : DIE := .mk "DW_TAG_structure_type" 1 (some "S") none none [anonMember] 0

def anonMemberW : DIE := .mk "DW_TAG_member" 5 none none (some 0) [] 0

def memberOk6 : DIE := .mk "DW_TAG_member" 2 (some "m1") none (some 0) [] 0

def memberNoLoc : DIE := .mk "DW_TAG_member" 3 (some "m2") none none [] 0

def structBadHost : DIE := .mk "DW_TAG_structure_type" 1 (some "S") none none [memberOk6, memberNoLoc] 0

def memberM1 : DIE := .mk "DW_TAG_member" 2 (some "m1") none (some 0) [] 0

def memberM2 : DIE := .mk "DW_TAG_member" 3 (some "m2") none (some 4) [] 0

def structPoint : DIE := .mk "DW_TAG_structure_type" 1 (some "Point") none none [memberM1, memberM2] 0

def memberX10 : DIE := .mk "DW_TAG_member" 11 (some "x") none (some 0) [] 0

def structInner : DIE := .mk "DW_TAG_structure_type" 10 (some "Inner") none none [memberX10] 0

def typedefTQ : DIE := .mk "DW_TAG_typedef" 20 (some "TQ") (some 10) none [] 0

def cusC10 : List (List DIE) := [[structInner, typedefTQ]]

/-- Claim C1: if the queried name is present in `structs_by_name`, the
resolution block returns that struct record, and the result does not depend on
`typedefs_by_name` at all — a direct struct name shadows a same-named typedef. -/
theorem resolveStruct_direct_name_shadows_typedefs (idx : Index) (n : String) (s : DIE)
    (h : idx.structs_by_name.lookup n = some s) :
    resolveStruct idx n = .found s ∧
      ∀ tds : List (String × DIE),
        resolveStruct { idx with typedefs_by_name := tds } n = .found s := by
  refine ⟨by simp [resolveStruct, h], ?_⟩
  intro tds
  simp [resolveStruct, h]

theorem resolveStruct_direct_name_shadows_typedefs_witness :
    resolveStruct idxC1 "X" = .found structX :=
  (resolveStruct_direct_name_shadows_typedefs idxC1 "X" structX (by rfl)).1

/-- Claim C2: when the query misses `structs_by_name` but hits
`typedefs_by_name`, the target is the typedef's `DW_AT_type` value plus the
typedef's owning compilation unit's `cu_offset`, and that absolute offset is
looked up in `structs_by_offset`. -/
theorem resolveStruct_typedef_target_offset (idx : Index) (n : String) (td : DIE) (tref : Nat)
    (h1 : idx.structs_by_name.lookup n = none)
    (h2 : idx.typedefs_by_name.lookup n = some td)
    (h3 : td.attr_type = some tref) :
    resolveStruct idx n =
      match idx.structs_by_offset.lookup (tref + td.cu_offset) with
      | some s => ResolveResult.found s
      | none => ResolveResult.structNotFound := by
  simp [resolveStruct, h1, h2, h3]

theorem resolveStruct_typedef_target_offset_witness :
    resolveStruct idxC2 "T2" = .found structC2 :=
  (resolveStruct_typedef_target_offset idxC2 "T2" typedefC2 6 (by rfl) (by rfl) (by rfl)).trans
    (by rfl)

/-- Claim C3: a typedef `t` aliasing (at one level) an indexed struct `s`, with
no struct itself named `t`, resolves to the very record that resolving the
struct's own name yields, so both resolutions enumerate the same (name, byte
offset) member sequence in the same order. -/
theorem resolveStruct_typedef_alias_same_members (idx : Index) (t sname : String)
    (td s : DIE) (tref : Nat)
    (h1 : idx.structs_by_name.lookup t = none)
    (h2 : idx.typedefs_by_name.lookup t = some td)
    (h3 : td.attr_type = some tref)
    (h4 : idx.structs_by_offset.lookup (tref + td.cu_offset) = some s)
    (h5 : idx.structs_by_name.lookup sname = some s) :
    resolveStruct idx t = .found s ∧ resolveStruct idx sname = .found s ∧
      ∀ r r' : DIE, resolveStruct idx t = .found r → resolveStruct idx sname = .found r' →
        enumerateMembers r.children = enumerateMembers r'.children := by
  have e1 : resolveStruct idx t = .found s := by simp [resolveStruct, h1, h2, h3, h4]
  have e2 : resolveStruct idx sname = .found s := by simp [resolveStruct, h5]
  refine ⟨e1, e2, ?_⟩
  intro r r' hr hr'
  rw [e1] at hr
  rw [e2] at hr'
  injection hr with hs
  injection hr' with hs'
  rw [← hs, ← hs']

theorem resolveStruct_typedef_alias_same_members_witness :
    resolveStruct idxC3 "T3" = .found structC3 ∧ resolveStruct idxC3 "S3" = .found structC3 :=
  ⟨(resolveStruct_typedef_alias_same_members idxC3 "T3" "S3" typedefC3 structC3 10
      (by rfl) (by rfl) (by rfl) (by rfl) (by rfl)).1,
   (resolveStruct_typedef_alias_same_members idxC3 "T3" "S3" typedefC3 structC3 10
      (by rfl) (by rfl) (by rfl) (by rfl) (by rfl)).2.1⟩

/-- Claim C4: a name in neither `structs_by_name` nor `typedefs_by_name`
resolves to the `could not find struct` exit and nothing else; likewise a
typedef whose computed target offset is not a key of `structs_by_offset`
(a primitive target, or a second typedef — chains are never followed). -/
theorem resolveStruct_not_found_cases (idx : Index) (n : String) :
    (idx.structs_by_name.lookup n = none → idx.typedefs_by_name.lookup n = none →
      resolveStruct idx n = .structNotFound) ∧
    (∀ (td : DIE) (tref : Nat),
      idx.structs_by_name.lookup n = none →
      idx.typedefs_by_name.lookup n = some td →
      td.attr_type = some tref →
      idx.structs_by_offset.lookup (tref + td.cu_offset) = none →
      resolveStruct idx n = .structNotFound) := by
  refine ⟨?_, ?_⟩
  · intro h1 h2
    simp [resolveStruct, h1, h2]
  · intro td tref h1 h2 h3 h4
    simp [resolveStruct, h1, h2, h3, h4]

theorem resolveStruct_not_found_cases_witness :
    resolveStruct idxC4 "nosuch" = .structNotFound ∧
      resolveStruct idxC4 "T4" = .structNotFound :=
  ⟨(resolveStruct_not_found_cases idxC4 "nosuch").1 (by rfl) (by rfl),
   (resolveStruct_not_found_cases idxC4 "T4").2 typedefT4 30 (by rfl) (by rfl) (by rfl) (by rfl)⟩

/-- Claim C9: a query that misses `structs_by_name` and hits a typedef that
carries no `DW_AT_type` attribute ends in the uncaught dictionary `KeyError`,
not in the `could not find struct` exit or any other outcome. -/
theorem resolveStruct_missing_type_ref_keyError (idx : Index) (n : String) (td : DIE)
    (h1 : idx.structs_by_name.lookup n = none)
    (h2 : idx.typedefs_by_name.lookup n = some td)
    (h3 : td.attr_type = none) :
    resolveStruct idx n = .keyError "DW_AT_type" := by
  simp [resolveStruct, h1, h2, h3]

theorem resolveStruct_missing_type_ref_keyError_witness :
    resolveStruct idxC9 "T9" = .keyError "DW_AT_type" :=
  resolveStruct_missing_type_ref_keyError idxC9 "T9" typedefT9 (by rfl) (by rfl) (by rfl)

lemma some_beq_some (a b : String) : (some a == some b) = (a == b) := rfl

lemma lookup_cons_eq_if {α β : Type} [BEq α] [LawfulBEq α] [DecidableEq α]
    (k a : α) (b : β) (es : List (α × β)) :
    ((k, b) :: es).lookup a = if a = k then some b else es.lookup a := by
  rw [List.lookup_cons]
  by_cases h : a = k
  · simp [h]
  · simp [beq_false_of_ne h, h]

lemma processDIE_lookup (idx : Index) (d : DIE) (n : String) (off : Nat) :
    ((processDIE idx d).structs_by_name.lookup n =
        if isStructNamed n d then some d else idx.structs_by_name.lookup n) ∧
      ((processDIE idx d).typedefs_by_name.lookup n =
        if isTypedefNamed n d then some d else idx.typedefs_by_name.lookup n) ∧
      ((processDIE idx d).structs_by_offset.lookup off =
        if isStructAt off d then some d else idx.structs_by_offset.lookup off) := by
  cases h1 : d.tag == "DW_TAG_typedef" <;>
    cases h2 : d.tag == "DW_TAG_structure_type"
  case false.false =>
    rcases hn : DIE_to_name d with _ | name <;>
      simp [processDIE, isStructNamed, isTypedefNamed, isStructAt, h1, h2, hn]
  case false.true =>
    rcases hn : DIE_to_name d with _ | name
    · refine ⟨?_, ?_, ?_⟩ <;>
        simp [processDIE, isStructNamed, isTypedefNamed, isStructAt, h1, h2, hn,
          lookup_cons_eq_if]
    · refine ⟨?_, ?_, ?_⟩ <;>
        simp [processDIE, isStructNamed, isTypedefNamed, isStructAt, h1, h2, hn,
          lookup_cons_eq_if, some_beq_some]
  case true.false =>
    rcases hn : DIE_to_name d with _ | name
    · simp [processDIE, isStructNamed, isTypedefNamed, isStructAt, h1, h2, hn]
    · refine ⟨?_, ?_, ?_⟩ <;>
        simp [processDIE, isStructNamed, isTypedefNamed, isStructAt, h1, h2, hn,
          lookup_cons_eq_if, some_beq_some]
  case true.true =>
    have : "DW_TAG_typedef" = "DW_TAG_structure_type" :=
      (eq_of_beq h1).symm.trans (eq_of_beq h2)
    exact absurd this (by decide)

lemma foldl_processDIE_lookup (dies : List DIE) (idx : Index) (n : String) (off : Nat) :
    ((dies.foldl processDIE idx).structs_by_name.lookup n =
        ((dies.reverse.find? (isStructNamed n)).or (idx.structs_by_name.lookup n))) ∧
      ((dies.foldl processDIE idx).typedefs_by_name.lookup n =
        ((dies.reverse.find? (isTypedefNamed n)).or (idx.typedefs_by_name.lookup n))) ∧
      ((dies.foldl processDIE idx).structs_by_offset.lookup off =
        ((dies.reverse.find? (isStructAt off)).or (idx.structs_by_offset.lookup off))) := by
  induction dies generalizing idx with
  | nil => simp
  | cons d rest ih =>
    obtain ⟨ih1, ih2, ih3⟩ := ih (processDIE idx d)
    obtain ⟨p1, p2, p3⟩ := processDIE_lookup idx d n off
    refine ⟨?_, ?_, ?_⟩
    · rw [List.foldl_cons, ih1, p1]
      cases hp : isStructNamed n d <;>
        simp [hp, List.find?_append, Option.or_assoc]
    · rw [List.foldl_cons, ih2, p2]
      cases hp : isTypedefNamed n d <;>
        simp [hp, List.find?_append, Option.or_assoc]
    · rw [List.foldl_cons, ih3, p3]
      cases hp : isStructAt off d <;>
        simp [hp, List.find?_append, Option.or_assoc]

/-- Claim C8: in the built index, a name maps to the last-parsed
structure-type (respectively typedef) DIE carrying it — searching the parse
order backwards, i.e. last-one-wins across compilation units — and every
structure-type DIE, named or anonymous, is reachable in `structs_by_offset`
under its absolute offset. -/
theorem buildIndex_last_one_wins (cus : List (List DIE)) (n : String) (off : Nat) :
    ((buildIndex cus).structs_by_name.lookup n =
        cus.flatten.reverse.find? (isStructNamed n)) ∧
      ((buildIndex cus).typedefs_by_name.lookup n =
        cus.flatten.reverse.find? (isTypedefNamed n)) ∧
      ((buildIndex cus).structs_by_offset.lookup off =
        cus.flatten.reverse.find? (isStructAt off)) ∧
      (∀ d ∈ cus.flatten, d.tag = "DW_TAG_structure_type" →
        ((buildIndex cus).structs_by_offset.lookup d.offset).isSome) := by
  have hb : buildIndex cus = cus.flatten.foldl processDIE emptyIndex := by
    rw [buildIndex, List.foldl_flatten]
  refine ⟨?_, ?_, ?_, ?_⟩
  · rw [hb, (foldl_processDIE_lookup cus.flatten emptyIndex n off).1]
    simp [emptyIndex, List.lookup]
  · rw [hb, (foldl_processDIE_lookup cus.flatten emptyIndex n off).2.1]
    simp [emptyIndex, List.lookup]
  · rw [hb, (foldl_processDIE_lookup cus.flatten emptyIndex n off).2.2]
    simp [emptyIndex, List.lookup]
  · intro d hd htag
    rw [hb, (foldl_processDIE_lookup cus.flatten emptyIndex n d.offset).2.2]
    simp only [emptyIndex, List.lookup, Option.or_none]
    refine Option.isSome_iff_exists.mpr ?_
    have : ∃ x, x ∈ cus.flatten.reverse ∧ isStructAt d.offset x = true :=
      ⟨d, List.mem_reverse.mpr hd, by simp [isStructAt, htag]⟩
    obtain ⟨x, hx⟩ := List.find?_isSome.mpr this |> Option.isSome_iff_exists.mp
    exact ⟨x, hx⟩

theorem buildIndex_last_one_wins_witness :
    (buildIndex cusC8).structs_by_name.lookup "D" = some structDup2 ∧
      ((buildIndex cusC8).structs_by_offset.lookup anonStruct.offset).isSome := by
  refine ⟨?_, ?_⟩
  · rw [(buildIndex_last_one_wins cusC8 "D" 0).1]
    rfl
  · exact (buildIndex_last_one_wins cusC8 "D" 0).2.2.2 anonStruct (by simp [cusC8]) rfl

/-- Claim C5 counterexample: a member child with no `DW_AT_name` does not make
the run fail; the whole block is emitted successfully and the anonymous member
appears as a constant named `None` (Python's rendering of `%s` on `None`). -/
theorem anonymous_member_emitted_counterexample :
    runQuery [[structAnonHost]] "S" =
      .ok ["final class S \x7b", "  public static final int None = 0x0;", "\x7d"] := rfl

/-- Claim C5 (amended): a member child with no name attribute is emitted, not
rejected — the loop prints the constant line with the literal name `None`
and continues with the remaining children. -/
theorem emitMembers_nameless_member_emits_None (acc : List String) (c : DIE)
    (rest : List DIE) (off : Nat)
    (h1 : c.tag = "DW_TAG_member") (h2 : c.attr_name = none)
    (h3 : c.attr_member_loc = some off) :
    emitMembers acc (c :: rest) =
      emitMembers (acc ++ ["  public static final int None = 0x" ++ hexStr off ++ ";"]) rest := by
  have hline : memberLine (DIE_to_name c) off =
      "  public static final int None = 0x" ++ hexStr off ++ ";" := by
    show memberLine c.attr_name off = _
    rw [h2]
    rfl
  simp [emitMembers, h1, h3, hline]

theorem emitMembers_nameless_member_emits_None_witness :
    emitMembers [] [anonMemberW] =
      emitMembers ["  public static final int None = 0x" ++ hexStr 0 ++ ";"] [] :=
  emitMembers_nameless_member_emits_None [] anonMemberW [] 0 rfl rfl rfl

/-- Claim C6 counterexample: with a first member at offset 0 and a second
member lacking `DW_AT_data_member_location`, the run hits the uncaught
`KeyError` after the class header and the first member line were already
printed to stdout — partial output is emitted, not a clean
`MissingMemberOffset` failure with empty output. -/
theorem missing_offset_partial_output_counterexample :
    runQuery [[structBadHost]] "S" =
      .keyError "DW_AT_data_member_location"
        ["final class S \x7b", "  public static final int m1 = 0x0;"] := rfl

lemma emitMembers_takes_members (pre : List DIE) :
    ∀ (acc : List String) (l : List DIE),
      (∀ c ∈ pre, c.tag = "DW_TAG_member" ∧ (c.attr_member_loc).isSome = true) →
      emitMembers acc (pre ++ l) =
        emitMembers
          (acc ++ pre.map fun c => memberLine (DIE_to_name c) (c.attr_member_loc.getD 0)) l := by
  induction pre with
  | nil =>
    intro acc l h
    simp
  | cons c rest ih =>
    intro acc l h
    obtain ⟨h1, h2⟩ := h c (List.mem_cons_self c rest)
    obtain ⟨off, hoff⟩ := Option.isSome_iff_exists.mp h2
    have step := ih (acc ++ [memberLine (DIE_to_name c) off]) l
      (fun x hx => h x (List.mem_cons_of_mem c hx))
    have hhead : emitMembers acc ((c :: rest) ++ l) =
        emitMembers (acc ++ [memberLine (DIE_to_name c) off]) (rest ++ l) := by
      simp [emitMembers, h1, hoff]
    rw [hhead, step]
    simp [hoff, List.append_assoc]

/-- Claim C6 (amended): when a member child lacks
`DW_AT_data_member_location`, the run ends in the uncaught `KeyError` — not a
typed `MissingMemberOffset` failure — and the class header plus every member
line before the offending child have already been written to stdout, so
partial output IS emitted. -/
theorem emitStruct_missing_offset_keyError_partial (q : String) (s : DIE)
    (pre : List DIE) (bad : DIE) (tl : List DIE)
    (hch : s.children = pre ++ bad :: tl)
    (hpre : ∀ c ∈ pre, c.tag = "DW_TAG_member" ∧ (c.attr_member_loc).isSome = true)
    (hbad : bad.tag = "DW_TAG_member") (hloc : bad.attr_member_loc = none) :
    emitStruct q s =
      .keyError "DW_AT_data_member_location"
        (classHeader q ::
          pre.map fun c => memberLine (DIE_to_name c) (c.attr_member_loc.getD 0)) := by
  rw [emitStruct, hch, emitMembers_takes_members pre [classHeader q] (bad :: tl) hpre]
  simp [emitMembers, hbad, hloc]

theorem emitStruct_missing_offset_keyError_partial_witness :
    emitStruct "S" structBadHost =
      .keyError "DW_AT_data_member_location"
        (classHeader "S" ::
          [memberOk6].map fun c => memberLine (DIE_to_name c) (c.attr_member_loc.getD 0)) :=
  emitStruct_missing_offset_keyError_partial "S" structBadHost [memberOk6] memberNoLoc []
    rfl (by decide) rfl rfl

lemma enumerateMembers_all_ok (cs : List DIE)
    (h : ∀ c ∈ cs, c.tag = "DW_TAG_member" ∧ (c.attr_member_loc).isSome = true) :
    enumerateMembers cs = .ok (cs.map fun c => (DIE_to_name c, c.attr_member_loc.getD 0)) := by
  induction cs with
  | nil => rfl
  | cons c rest ih =>
    obtain ⟨h1, h2⟩ := h c (List.mem_cons_self c rest)
    obtain ⟨off, hoff⟩ := Option.isSome_iff_exists.mp h2
    have ihr := ih (fun x hx => h x (List.mem_cons_of_mem c hx))
    simp [enumerateMembers, h1, hoff, ihr]

/-- Claim C7: for a struct whose children are all member records, each with a
name and a byte offset, the member loop succeeds and produces exactly the
(name, byte offset) pair of each child, in the order the children appear in
the debug record. -/
theorem enumerateMembers_ordered_pairs (s : DIE)
    (h : ∀ c ∈ s.children, c.tag = "DW_TAG_member" ∧ (DIE_to_name c).isSome = true ∧
      (c.attr_member_loc).isSome = true) :
    enumerateMembers s.children =
      .ok (s.children.map fun c => (DIE_to_name c, c.attr_member_loc.getD 0)) :=
  enumerateMembers_all_ok s.children (fun c hc => ⟨(h c hc).1, (h c hc).2.2⟩)

theorem enumerateMembers_ordered_pairs_witness :
    enumerateMembers structPoint.children = .ok [(some "m1", 0), (some "m2", 4)] :=
  (enumerateMembers_ordered_pairs structPoint (by decide)).trans rfl

lemma emitMembers_ok_starts_with (cs : List DIE) :
    ∀ (acc out : List String), emitMembers acc cs = .ok out → ∃ r, out = acc ++ r := by
  induction cs with
  | nil =>
    intro acc out h
    simp only [emitMembers] at h
    injection h with h
    exact ⟨["\x7d"], h.symm⟩
  | cons c rest ih =>
    intro acc out h
    simp only [emitMembers] at h
    by_cases h1 : c.tag = "DW_TAG_member"
    · rw [if_pos (by simp [h1])] at h
      cases hloc : c.attr_member_loc with
      | none => rw [hloc] at h; exact absurd h (by simp)
      | some off =>
        rw [hloc] at h
        obtain ⟨r, hr⟩ := ih (acc ++ [memberLine (DIE_to_name c) off]) out h
        exact ⟨memberLine (DIE_to_name c) off :: r, by simp [hr]⟩
    · rw [if_neg (by simp [h1])] at h
      exact absurd h (by simp)

/-- Claim C10: whenever the run succeeds, the first stdout line is the block
header built from the query string exactly as given — so a resolution that
went through a typedef names the block after the typedef, not after the
underlying struct. -/
theorem runQuery_ok_header_is_query (cus : List (List DIE)) (q : String) (out : List String)
    (h : runQuery cus q = .ok out) :
    ∃ r, out = classHeader q :: r := by
  rw [runQuery] at h
  cases hr : resolveStruct (buildIndex cus) q with
  | found s =>
    rw [hr] at h
    simp only [emitStruct] at h
    obtain ⟨r, hrr⟩ := emitMembers_ok_starts_with s.children [classHeader q] out h
    exact ⟨r, by simpa using hrr⟩
  | structNotFound => rw [hr] at h; exact absurd h (by simp)
  | keyError k => rw [hr] at h; exact absurd h (by simp)

theorem runQuery_ok_header_is_query_witness :
    ∃ r, ["final class TQ \x7b", "  public static final int x = 0x0;", "\x7d"] =
      classHeader "TQ" :: r :=
  runQuery_ok_header_is_query cusC10 "TQ"
    ["final class TQ \x7b", "  public static final int x = 0x0;", "\x7d"] (by rfl)

end Struct2Java
